import Mathlib

/-!
Verification of the Django blog backend (users, posts, comments, REST views).

Shallow embedding conventions:
* Python strings are lists of Unicode code points (`Str := List Nat`).
* The database is an explicit record of user/post/comment rows.
* Django/DRF behaviour that the views rely on (permission dispatch,
  `get_object_or_404`, ModelSerializer field handling, `on_delete` actions,
  `django.utils.text.slugify`) is embedded directly, following the library
  semantics the source code invokes.
-/

namespace Blog

/-- Python strings modelled as lists of Unicode code points. -/
abbrev Str := List Nat

/-- Convert a Lean string literal to the code-point model (for concrete inputs). -/
def strOf (s : String) : Str := s.data.map Char.toNat

/- ----------------------------------------------------------------
   django.utils.text.slugify (used by Post.save in posts/models.py)

   Python source (allow_unicode=False):
     value = unicodedata.normalize("NFKD", value).encode("ascii", "ignore").decode("ascii")
     value = re.sub(r"[^\w\s-]", "", value.lower())
     return re.sub(r"[-\s]+", "-", value).strip("-_")

   The NFKD + ascii-ignore step is modelled as dropping non-ASCII code
   points (exact for ASCII input; NFKD decomposition of non-ASCII input is
   not modelled, which does not affect the idempotence claim because the
   first application always produces pure ASCII output).
   ---------------------------------------------------------------- -/

/-- ASCII whitespace, Python's `\s` on ASCII text: space, TAB, LF, VT, FF, CR. -/
def isAsciiSpace (n : Nat) : Bool :=
  n == 32 || n == 9 || n == 10 || n == 11 || n == 12 || n == 13

/-- Python `\w` on ASCII text: `[a-zA-Z0-9_]`. -/
def isWordCh (n : Nat) : Bool :=
  decide (97 ≤ n ∧ n ≤ 122) || decide (48 ≤ n ∧ n ≤ 57) ||
  decide (65 ≤ n ∧ n ≤ 90) || n == 95

/-- `str.lower` restricted to ASCII letters (the input at this point is ASCII). -/
def asciiLower (n : Nat) : Nat := if 65 ≤ n ∧ n ≤ 90 then n + 32 else n

/-- A character matched by the regex class `[-\s]` (hyphen 45 or whitespace). -/
def dashSpace (n : Nat) : Bool := n == 45 || isAsciiSpace n

/-- A character stripped from the ends by `.strip("-_")`: hyphen 45 or underscore 95. -/
def stripCh (n : Nat) : Bool := n == 45 || n == 95

/-- `re.sub(r"[-\s]+", "-", _)`: each maximal run of hyphens/whitespace becomes
one hyphen.  The flag records whether we are inside such a run. -/
def collapseAux : Str → Bool → Str
  | [], _ => []
  | n :: t, false => if dashSpace n then 45 :: collapseAux t true else n :: collapseAux t false
  | n :: t, true => if dashSpace n then collapseAux t true else n :: collapseAux t false

/-- Characters a slug may contain: `[a-z0-9_-]`. -/
def goodCh (n : Nat) : Bool :=
  decide (97 ≤ n ∧ n ≤ 122) || decide (48 ≤ n ∧ n ≤ 57) || n == 95 || n == 45

/-- Adjacent-pair relation of slugs: never two hyphens in a row. -/
def noDashPair (a b : Nat) : Prop := ¬(a = 45 ∧ b = 45)

/-- `django.utils.text.slugify` (see block comment above). -/
def slugify (l : Str) : Str :=
  let ascii := l.filter (fun n => decide (n < 128))
  let low := ascii.map asciiLower
  let kept := low.filter (fun n => isWordCh n || isAsciiSpace n || n == 45)
  let coll := collapseAux kept false
  ((coll.dropWhile stripCh).reverse.dropWhile stripCh).reverse

/- ----------------------------------------------------------------
   Data model (users/models.py, posts/models.py)
   ---------------------------------------------------------------- -/

/-- A row of the custom `User` model (users/models.py).  `password` stores the
hash produced by `set_password`/`make_password`. -/
structure DUser where
  id : Nat
  email : Str
  password : Str
  first_name : Str
  last_name : Str
  is_staff : Bool
  is_active : Bool
  created_at : Nat
deriving DecidableEq

/-- A row of the `Post` model (posts/models.py).  `author` is a nullable FK with
`on_delete=SET_NULL`. -/
structure Post where
  id : Nat
  author : Option Nat
  title : Str
  slug : Str
  content : Str
  excerpt : Str
  created_at : Nat
  updated_at : Nat
  is_published : Bool
deriving DecidableEq

/-- A row of the `Comment` model (posts/models.py).  `post` is a FK with
`on_delete=CASCADE`; `author` is nullable with `on_delete=SET_NULL`;
`is_approved` defaults to `false`. -/
structure Comment where
  id : Nat
  post : Nat
  author : Option Nat
  body : Str
  created_at : Nat
  updated_at : Nat
  is_approved : Bool
deriving DecidableEq

/-- The persistent store.  `now` supplies values for `auto_now`/`auto_now_add`
timestamp fields. -/
structure DB where
  users : List DUser
  posts : List Post
  comments : List Comment
  now : Nat
deriving DecidableEq

/-- `request.user`: either Django's `AnonymousUser` or an authenticated user.
(`AnonymousUser.is_staff` is `False`; JWT authentication yields a real user.) -/
inductive Caller
  | anon
  | user (id : Nat) (staff : Bool)
deriving DecidableEq

def Caller.is_staff : Caller → Bool
  | .anon => false
  | .user _ s => s

def Caller.is_authenticated : Caller → Bool
  | .anon => false
  | .user _ _ => true

def Caller.uid : Caller → Option Nat
  | .anon => none
  | .user i _ => some i

/-- HTTP methods handled by the views. -/
inductive Method
  | GET | HEAD | OPTIONS | POST | PUT | PATCH | DELETE
deriving DecidableEq

/-- `rest_framework.permissions.SAFE_METHODS = ('GET', 'HEAD', 'OPTIONS')`. -/
def SAFE_METHODS : List Method := [.GET, .HEAD, .OPTIONS]

/-- `Post.objects.get(pk=...)` / `get_object_or_404` style lookup. -/
def findPost (db : DB) (pk : Nat) : Option Post :=
  db.posts.find? (fun p => p.id == pk)

/-- Comment lookup by primary key. -/
def findComment (db : DB) (pk : Nat) : Option Comment :=
  db.comments.find? (fun c => c.id == pk)

/-- The reverse FK queryset `post.comment_set.all()`. -/
def commentsOfPost (db : DB) (pid : Nat) : List Comment :=
  db.comments.filter (fun c => c.post == pid)

/- ----------------------------------------------------------------
   posts/permissions.py
   ---------------------------------------------------------------- -/

/-- `IsAdminOrReadOnly.has_permission`: safe methods are open to everyone,
unsafe methods require `request.user.is_staff`. -/
def IsAdminOrReadOnly_has_permission (u : Caller) (m : Method) : Bool :=
  if m ∈ SAFE_METHODS then true else u.is_staff

/-- `IsAuthorOrAdmin.has_permission`: requires an authenticated user for every
method. -/
def IsAuthorOrAdmin_has_permission (u : Caller) : Bool :=
  u.is_authenticated

/-- `IsAuthorOrAdmin.has_object_permission`: staff always pass, otherwise the
caller must be the comment's author (`obj.author == request.user`). -/
def IsAuthorOrAdmin_has_object_permission (u : Caller) (c : Comment) : Bool :=
  if u.is_staff then true
  else match u with
    | .anon => false
    | .user i _ => c.author == some i

/-- DRF `APIView.permission_denied`: a failed permission check raises
`NotAuthenticated` (401) for anonymous callers and `PermissionDenied` (403)
for authenticated ones. -/
def denialStatus (u : Caller) : Nat :=
  if u.is_authenticated then 403 else 401

/-- The permission gate DRF runs before `post_list_create` and `post_detail`
(`@permission_classes([IsAdminOrReadOnly])`).  `none` means the request
proceeds into the view body; `some s` means it is rejected with HTTP status
`s`. -/
def post_endpoint_gate (u : Caller) (m : Method) : Option Nat :=
  if IsAdminOrReadOnly_has_permission u m then none else some (denialStatus u)

/- ----------------------------------------------------------------
   posts/serializers.py
   ---------------------------------------------------------------- -/

/-- Reverse accessor Django generates for `Comment.post`: the FK declares no
`related_name` (posts/models.py line 49), so the accessor on `Post` is
`"comment_set"` (model name + `"_set"`); `post_detail` itself prefetches
`"comment_set__author"` (posts/views.py line 66). -/
def commentReverseAccessor : String := "comment_set"

/-- Attribute lookup of a comment-relation attribute on a `Post` instance, as
performed by Python's `getattr`.  Only the generated accessor name resolves;
any other name raises `AttributeError` (modelled as `none`). -/
def postRelatedQuery (db : DB) (p : Post) (attrName : String) : Option (List Comment) :=
  if attrName = commentReverseAccessor then some (commentsOfPost db p.id) else none

/-- `PostDetailSerializer.get_comment_count`:
`return obj.comments.filter(is_approved=True).count()` — note the attribute
read is `comments`, not the generated accessor `comment_set`. -/
def get_comment_count (db : DB) (p : Post) : Except String Nat :=
  match postRelatedQuery db p "comments" with
  | some cs => .ok ((cs.filter (fun c => c.is_approved)).length)
  | none => .error "AttributeError"

/-- The number of approved comments attached to a post — the quantity the
spec's `comment_count` field is defined to report. -/
def approvedCommentCount (db : DB) (pid : Nat) : Nat :=
  ((commentsOfPost db pid).filter (fun c => c.is_approved)).length

/-- Incoming data for `CommentSerializer` writes.  `id`, `author`,
`created_at` are in `read_only_fields`, so payload values for them are
ignored and they do not appear here; `post`, `body` and `is_approved` are
writable. -/
structure CommentPayload where
  post : Option Nat := none
  body : Option Str := none
  is_approved : Option Bool := none
deriving DecidableEq

/-- Field-keyed validation errors of `CommentSerializer.is_valid`.
With `patchFlag` (a PATCH request, `partial=True`) missing fields are
allowed; otherwise `post` and `body` are required.  A supplied `post` pk must
resolve against `Post.objects.all()` (`PrimaryKeyRelatedField`, and
`validate_post` re-checks existence); a supplied `body` must be non-blank
(`TextField` maps to `CharField(allow_blank=False)`). -/
def commentFieldErrors (db : DB) (patchFlag : Bool) (pl : CommentPayload) : List String :=
  (match pl.post with
   | none => if patchFlag then [] else ["post"]
   | some pid => if (findPost db pid).isSome then [] else ["post"]) ++
  (match pl.body with
   | none => if patchFlag then [] else ["body"]
   | some b => if b = [] then ["body"] else [])

/-- Auto-increment primary key for a new comment. -/
def freshCommentId (db : DB) : Nat :=
  db.comments.foldr (fun c m => max c.id m) 0 + 1

/-- Outcome of `comment_create` (posts/views.py). -/
inductive CreateResult
  | unauthorized
  | badRequest (fields : List String)
  | created (c : Comment)
deriving DecidableEq

/-- HTTP status of a `CreateResult`. -/
def createStatus : CreateResult → Nat
  | .unauthorized => 401
  | .badRequest _ => 400
  | .created _ => 201

/-- `comment_create` (posts/views.py): guarded by `IsAuthenticated`; on valid
data runs `serializer.save(author=request.user)`, which creates the comment
with every writable validated field — including a payload-supplied
`is_approved` (the model default `false` applies only when the payload omits
it). -/
def comment_create (db : DB) (u : Caller) (pl : CommentPayload) : CreateResult :=
  if u.is_authenticated then
    match commentFieldErrors db false pl with
    | [] =>
      match pl.post, pl.body with
      | some pid, some b =>
        .created { id := freshCommentId db, post := pid, author := u.uid,
                   body := b, created_at := db.now, updated_at := db.now,
                   is_approved := pl.is_approved.getD false }
      | _, _ =>
        -- unreachable: a non-PATCH validation with no errors implies both
        -- `post` and `body` are present
        .badRequest ["post", "body"]
    | errs => .badRequest errs
  else .unauthorized

/-- Outcome of the PUT/PATCH branch of `comment_detail` (posts/views.py). -/
inductive UpdateResult
  | unauthorized
  | notFound
  | forbidden
  | badRequest (fields : List String)
  | ok (c : Comment)
deriving DecidableEq

/-- The PUT/PATCH branch of `comment_detail` (posts/views.py):
401 for anonymous callers (`IsAuthorOrAdmin.has_permission`), 404 when the
comment does not exist (`get_object_or_404`), 403 when the caller is neither
the author nor staff (`has_object_permission`), 400 on validation errors;
otherwise, for non-staff callers any `is_approved` key is deleted from
`validated_data` before `serializer.save()` applies the remaining fields. -/
def comment_update (db : DB) (u : Caller) (pk : Nat) (m : Method)
    (pl : CommentPayload) : UpdateResult :=
  if IsAuthorOrAdmin_has_permission u then
    match findComment db pk with
    | none => .notFound
    | some c =>
      if IsAuthorOrAdmin_has_object_permission u c then
        let patchFlag := m == Method.PATCH
        match commentFieldErrors db patchFlag pl with
        | [] =>
          let pl' := if u.is_staff then pl else { pl with is_approved := none }
          .ok { c with post := pl'.post.getD c.post,
                       body := pl'.body.getD c.body,
                       is_approved := pl'.is_approved.getD c.is_approved }
        | errs => .badRequest errs
      else .forbidden
  else .unauthorized

/- ----------------------------------------------------------------
   posts/views.py : post_detail, GET branch
   ---------------------------------------------------------------- -/

/-- HTTP status of `GET /posts/<pk>/` (posts/views.py `post_detail`):
non-staff callers look the post up in
`Post.objects.filter(is_published=True)` while staff use
`Post.objects.all()`; a miss is 404 (`get_object_or_404`).  A hit is then
rendered by `PostDetailSerializer`; its `comment_count` method field is the
only fallible part of that rendering (the declared `comments` field is
`read_only`, so DRF turns its `AttributeError` into `SkipField`), and an
exception escaping the serializer is an unhandled server error (500). -/
def post_detail_get (db : DB) (u : Caller) (pk : Nat) : Nat :=
  let qs := if u.is_staff then db.posts else db.posts.filter (fun p => p.is_published)
  match qs.find? (fun p => p.id == pk) with
  | none => 404
  | some p =>
    match get_comment_count db p with
    | .ok _ => 200
    | .error _ => 500

/- ----------------------------------------------------------------
   posts/models.py : Post.save
   ---------------------------------------------------------------- -/

/-- `Post.save`: unconditionally recomputes `slug = slugify(title)` before
persisting. -/
def post_save (p : Post) : Post := { p with slug := slugify p.title }

/- ----------------------------------------------------------------
   users/models.py, users/serializers.py, users/views.py
   ---------------------------------------------------------------- -/

/-- `BaseUserManager.normalize_email`: strip the address, split at the last
`@` and lowercase the domain part; addresses without `@` are returned
unchanged. -/
def trimEnds (l : Str) : Str :=
  ((l.dropWhile isAsciiSpace).reverse.dropWhile isAsciiSpace).reverse

def normalize_email (e : Str) : Str :=
  if 64 ∈ e then
    let s := trimEnds e
    let rev := s.reverse
    let domRev := rev.takeWhile (fun n => n != 64)
    let nameRev := rev.drop (domRev.length + 1)
    nameRev.reverse ++ [64] ++ (domRev.reverse.map asciiLower)
  else e

/-- Stand-in for `django.contrib.auth.hashers.make_password` (external vetted
library; the spec delegates the hash algorithm).  Only the fact that the
stored value is the hasher's output matters to the claims. -/
def make_password (raw : Str) : Str := strOf "pbkdf2_sha256$" ++ raw

/-- Incoming data for `UserSerializer` writes.  `read_only_fields` is
`["id", "full_name", "created_at"]`, so those are ignored from the payload;
`email`, `password`, `first_name`, `last_name`, `is_staff` and `is_active`
are all writable. -/
structure RegisterPayload where
  email : Option Str := none
  password : Option Str := none
  first_name : Option Str := none
  last_name : Option Str := none
  is_staff : Option Bool := none
  is_active : Option Bool := none
deriving DecidableEq

/-- Field-keyed validation errors of `UserSerializer.is_valid` for a create:
`email` is required, non-blank and unique (`EmailField(unique=True)` adds a
`UniqueValidator`); `password` is declared `required=True`; the remaining
writable fields are optional (model defaults / `blank=True`). -/
def userFieldErrors (db : DB) (pl : RegisterPayload) : List String :=
  (match pl.email with
   | none => ["email"]
   | some e =>
     if e = [] then ["email"]
     else if db.users.any (fun uu => uu.email == e) then ["email"] else []) ++
  (match pl.password with
   | none => ["password"]
   | some p => if p = [] then ["password"] else [])

/-- Auto-increment primary key for a new user. -/
def freshUserId (db : DB) : Nat :=
  db.users.foldr (fun uu m => max uu.id m) 0 + 1

/-- `UserManager.create_user` called from `UserSerializer.create` with
`**validated_data`: normalizes the email, constructs the model instance from
the extra fields (model defaults `is_staff=False`, `is_active=True`,
`first_name`/`last_name` blank apply when absent), hashes the password via
`set_password` and saves.  The serializer guarantees a non-empty email, so
the `ValueError` branch is not reachable from `registerUser`. -/
def create_user (db : DB) (email pw : Str) (pl : RegisterPayload) : DUser :=
  { id := freshUserId db,
    email := normalize_email email,
    password := make_password pw,
    first_name := pl.first_name.getD [],
    last_name := pl.last_name.getD [],
    is_staff := pl.is_staff.getD false,
    is_active := pl.is_active.getD true,
    created_at := db.now }

/-- Outcome of `registerUser` (users/views.py). -/
inductive RegisterResult
  | badRequest (fields : List String)
  | created (u : DUser)
deriving DecidableEq

/-- `registerUser` (users/views.py): `AllowAny`; on valid data
`serializer.save()` runs `UserSerializer.create`, i.e.
`User.objects.create_user(**validated_data)`, and the view answers 201. -/
def registerUser (db : DB) (pl : RegisterPayload) : RegisterResult :=
  match userFieldErrors db pl with
  | [] =>
    match pl.email, pl.password with
    | some e, some pw => .created (create_user db e pw pl)
    | _, _ =>
      -- unreachable: no validation errors implies both fields are present
      .badRequest ["email", "password"]
  | errs => .badRequest errs

/- ----------------------------------------------------------------
   User deletion (Django delete collector applied to the FK declarations:
   Post.author and Comment.author are on_delete=SET_NULL)
   ---------------------------------------------------------------- -/

/-- Deleting a user: the user row is removed; every post and comment whose
`author` referenced it keeps all its data with `author` set to NULL. -/
def delete_user (db : DB) (uid : Nat) : DB :=
  { db with
    users := db.users.filter (fun uu => uu.id != uid),
    posts := db.posts.map (fun p =>
      if p.author = some uid then { p with author := none } else p),
    comments := db.comments.map (fun c =>
      if c.author = some uid then { c with author := none } else c) }

/-- After `delete_user db uid`, post `p` is still present with every field
except `author` unchanged, and `author` nulled exactly when it referenced the
deleted user. -/
def postKeptWithNullableAuthor (db : DB) (uid : Nat) (p : Post) : Prop :=
  ∃ p' ∈ (delete_user db uid).posts,
    p'.id = p.id ∧ p'.title = p.title ∧ p'.slug = p.slug ∧ p'.content = p.content ∧
    p'.excerpt = p.excerpt ∧ p'.is_published = p.is_published ∧
    p'.created_at = p.created_at ∧ p'.updated_at = p.updated_at ∧
    p'.author = if p.author = some uid then none else p.author

/-- After `delete_user db uid`, comment `c` is still present with every field
except `author` unchanged, and `author` nulled exactly when it referenced the
deleted user. -/
def commentKeptWithNullableAuthor (db : DB) (uid : Nat) (c : Comment) : Prop :=
  ∃ c' ∈ (delete_user db uid).comments,
    c'.id = c.id ∧ c'.post = c.post ∧ c'.body = c.body ∧
    c'.created_at = c.created_at ∧ c'.updated_at = c.updated_at ∧
    c'.is_approved = c.is_approved ∧
    c'.author = if c.author = some uid then none else c.author

/- ----------------------------------------------------------------
   Concrete fixtures for witnesses and counterexamples
   ---------------------------------------------------------------- -/

def fixUser5 : DUser :=
  { id := 5, email := strOf "five@x.io", password := strOf "h5",
    first_name := strOf "Fi", last_name := strOf "Ve",
    is_staff := false, is_active := true, created_at := 1 }

def fixUser7 : DUser :=
  { id := 7, email := strOf "seven@x.io", password := strOf "h7",
    first_name := strOf "Se", last_name := strOf "Vn",
    is_staff := false, is_active := true, created_at := 2 }

def fixStaff9 : DUser :=
  { id := 9, email := strOf "mod@x.io", password := strOf "h9",
    first_name := strOf "Mo", last_name := strOf "De",
    is_staff := true, is_active := true, created_at := 3 }

def fixPost1 : Post :=
  { id := 1, author := some 7, title := strOf "Hidden Draft",
    slug := strOf "hidden-draft", content := strOf "c1", excerpt := strOf "e1",
    created_at := 10, updated_at := 10, is_published := false }

def fixPost2 : Post :=
  { id := 2, author := some 7, title := strOf "Public Story",
    slug := strOf "public-story", content := strOf "c2", excerpt := strOf "e2",
    created_at := 11, updated_at := 11, is_published := true }

def fixComment3 : Comment :=
  { id := 3, post := 1, author := some 5, body := strOf "old",
    created_at := 20, updated_at := 20, is_approved := false }

def fixComment4 : Comment :=
  { id := 4, post := 2, author := some 7, body := strOf "nice",
    created_at := 21, updated_at := 21, is_approved := true }

def fixComment5 : Comment :=
  { id := 5, post := 2, author := some 5, body := strOf "pending",
    created_at := 22, updated_at := 22, is_approved := false }

def dbFix : DB :=
  { users := [fixUser5, fixUser7, fixStaff9],
    posts := [fixPost1, fixPost2],
    comments := [fixComment3, fixComment4, fixComment5],
    now := 100 }

def dbEmpty : DB := { users := [], posts := [], comments := [], now := 50 }

/-- Registration payload that sets `is_staff=true` (and nothing else unusual). -/
def plEvil : RegisterPayload :=
  { email := some (strOf "eve@x.io"), password := some (strOf "pw12345"),
    is_staff := some true }

/-- The user row `registerUser dbEmpty plEvil` creates. -/
def cexStaffUser : DUser :=
  { id := 1, email := strOf "eve@x.io",
    password := strOf "pbkdf2_sha256$pw12345",
    first_name := [], last_name := [],
    is_staff := true, is_active := true, created_at := 50 }

/-- Registration payload that leaves `is_staff`/`is_active` unset. -/
def plGood : RegisterPayload :=
  { email := some (strOf "bob@x.io"), password := some (strOf "pw12345") }

/-- The user row `registerUser dbEmpty plGood` creates. -/
def regUserGood : DUser :=
  { id := 1, email := strOf "bob@x.io",
    password := strOf "pbkdf2_sha256$pw12345",
    first_name := [], last_name := [],
    is_staff := false, is_active := true, created_at := 50 }

/-- The comment an authenticated non-staff user 5 creates with the payload
`{post: 1, body: "hi", is_approved: true}`. -/
def cexApprovedComment : Comment :=
  { id := 6, post := 1, author := some 5, body := strOf "hi",
    created_at := 100, updated_at := 100, is_approved := true }

/- ================================================================
   General list lemmas used by the slug development
   ================================================================ -/

theorem head?_dropWhile_false {p : Nat → Bool} {l : Str} {x : Nat}
    (h : (l.dropWhile p).head? = some x) : p x = false := by
  have hm := List.head?_dropWhile_not p l
  rw [h] at hm
  exact hm

theorem mem_of_mem_dropWhile {p : Nat → Bool} {l : Str} {x : Nat}
    (h : x ∈ l.dropWhile p) : x ∈ l := by
  have e := List.takeWhile_append_dropWhile p l
  rw [← e]
  exact List.mem_append_right _ h

theorem head?_append_left {l s : Str} {x : Nat} (h : l.head? = some x) :
    (l ++ s).head? = some x := by
  cases l with
  | nil => exact absurd h (by simp)
  | cons a t => simpa using h

theorem getLast?_append_right {t s : Str} {x : Nat} (h : s.getLast? = some x) :
    (t ++ s).getLast? = some x := by
  have h' : s.reverse.head? = some x := by rw [List.head?_reverse]; exact h
  rw [← List.head?_reverse, List.reverse_append]
  exact head?_append_left h'

theorem map_eq_self_of {f : Nat → Nat} {l : Str} (h : ∀ a ∈ l, f a = a) :
    l.map f = l := by
  induction l with
  | nil => rfl
  | cons a t ih =>
    rw [List.map_cons, h a (List.mem_cons_self a t),
      ih (fun x hx => h x (List.mem_cons_of_mem a hx))]

/- ================================================================
   Slug development: invariants of `slugify` output and fixed points
   ================================================================ -/

theorem asciiLower_not_upper (y : Nat) : ¬(65 ≤ asciiLower y ∧ asciiLower y ≤ 90) := by
  unfold asciiLower
  split <;> omega

theorem collapseAux_mem {l : Str} :
    ∀ {b : Bool} {x : Nat}, x ∈ collapseAux l b → x = 45 ∨ (x ∈ l ∧ dashSpace x = false) := by
  induction l with
  | nil => intro b x h; cases b <;> simp [collapseAux] at h
  | cons n t ih =>
    intro b x h
    by_cases hd : dashSpace n = true
    · cases b <;> simp only [collapseAux, hd, if_true] at h
      · rcases List.mem_cons.mp h with rfl | h'
        · exact Or.inl rfl
        · rcases ih h' with h45 | ⟨hm, hds⟩
          · exact Or.inl h45
          · exact Or.inr ⟨List.mem_cons_of_mem n hm, hds⟩
      · rcases ih h with h45 | ⟨hm, hds⟩
        · exact Or.inl h45
        · exact Or.inr ⟨List.mem_cons_of_mem n hm, hds⟩
    · rw [Bool.not_eq_true] at hd
      have step : x ∈ n :: collapseAux t false → x = 45 ∨ (x ∈ n :: t ∧ dashSpace x = false) := by
        intro hmem
        rcases List.mem_cons.mp hmem with rfl | h'
        · exact Or.inr ⟨List.mem_cons_self x t, hd⟩
        · rcases ih h' with h45 | ⟨hm, hds⟩
          · exact Or.inl h45
          · exact Or.inr ⟨List.mem_cons_of_mem n hm, hds⟩
      cases b <;> simp only [collapseAux, hd, Bool.false_eq_true, if_false] at h <;> exact step h

theorem collapseAux_true_head {l : Str} :
    ∀ {x : Nat}, (collapseAux l true).head? = some x → dashSpace x = false := by
  induction l with
  | nil => intro x h; simp [collapseAux] at h
  | cons n t ih =>
    intro x h
    by_cases hd : dashSpace n = true
    · simp only [collapseAux, hd, if_true] at h
      exact ih h
    · rw [Bool.not_eq_true] at hd
      simp only [collapseAux, hd, Bool.false_eq_true, if_false, List.head?_cons,
        Option.some.injEq] at h
      rw [← h]
      exact hd

theorem collapseAux_chain {l : Str} :
    ∀ b, List.Chain' noDashPair (collapseAux l b) := by
  induction l with
  | nil => intro b; cases b <;> simp [collapseAux]
  | cons n t ih =>
    intro b
    by_cases hd : dashSpace n = true
    · cases b <;> simp only [collapseAux, hd, if_true]
      · rw [List.chain'_cons']
        refine ⟨?_, ih true⟩
        intro y hy
        have hdy : dashSpace y = false := collapseAux_true_head hy
        rintro ⟨-, rfl⟩
        simp [dashSpace] at hdy
      · exact ih true
    · rw [Bool.not_eq_true] at hd
      cases b <;> simp only [collapseAux, hd, Bool.false_eq_true, if_false] <;>
        (rw [List.chain'_cons']
         refine ⟨?_, ih false⟩
         intro y hy
         rintro ⟨rfl, -⟩
         simp [dashSpace] at hd)

theorem collapseAux_fixed {l : Str} :
    (∀ x ∈ l, isAsciiSpace x = false) → List.Chain' noDashPair l →
    collapseAux l false = l ∧ (l.head? ≠ some 45 → collapseAux l true = l) := by
  induction l with
  | nil => intro _ _; exact ⟨rfl, fun _ => rfl⟩
  | cons n t ih =>
    intro hsp hch
    have hspn : isAsciiSpace n = false := hsp n (List.mem_cons_self n t)
    have hspt : ∀ x ∈ t, isAsciiSpace x = false :=
      fun x hx => hsp x (List.mem_cons_of_mem n hx)
    rw [List.chain'_cons'] at hch
    obtain ⟨hhd, hch'⟩ := hch
    obtain ⟨ih1, ih2⟩ := ih hspt hch'
    by_cases h45 : n = 45
    · subst h45
      have hds : dashSpace 45 = true := by simp [dashSpace]
      have hth : t.head? ≠ some 45 := by
        intro he
        exact hhd 45 he ⟨rfl, rfl⟩
      refine ⟨?_, ?_⟩
      · simp only [collapseAux, hds, if_true]
        rw [ih2 hth]
      · intro hne
        exact absurd rfl hne
    · have hds : dashSpace n = false := by
        simp [dashSpace, hspn, h45]
      constructor
      · simp only [collapseAux, hds, Bool.false_eq_true, if_false]
        rw [ih1]
      · intro _
        simp only [collapseAux, hds, Bool.false_eq_true, if_false]
        rw [ih1]

theorem chain'_strip {s : Str} (h : List.Chain' noDashPair s) :
    List.Chain' noDashPair ((s.dropWhile stripCh).reverse.dropWhile stripCh).reverse := by
  have e1 : s.takeWhile stripCh ++ s.dropWhile stripCh = s :=
    List.takeWhile_append_dropWhile stripCh s
  have h1 : List.Chain' noDashPair (s.dropWhile stripCh) := by
    rw [← e1] at h
    exact (List.chain'_append.mp h).2.1
  have e2 : (s.dropWhile stripCh).reverse.takeWhile stripCh ++
      (s.dropWhile stripCh).reverse.dropWhile stripCh = (s.dropWhile stripCh).reverse :=
    List.takeWhile_append_dropWhile stripCh _
  have e3 : s.dropWhile stripCh =
      ((s.dropWhile stripCh).reverse.dropWhile stripCh).reverse ++
      ((s.dropWhile stripCh).reverse.takeWhile stripCh).reverse := by
    have hrev := congrArg List.reverse e2
    rw [List.reverse_append, List.reverse_reverse] at hrev
    exact hrev.symm
  rw [e3] at h1
  exact (List.chain'_append.mp h1).1

theorem strip_head_ok {s : Str} {x : Nat}
    (h : (((s.dropWhile stripCh).reverse.dropWhile stripCh).reverse).head? = some x) :
    stripCh x = false := by
  rw [List.head?_reverse] at h
  have e2 : (s.dropWhile stripCh).reverse.takeWhile stripCh ++
      (s.dropWhile stripCh).reverse.dropWhile stripCh = (s.dropWhile stripCh).reverse :=
    List.takeWhile_append_dropWhile stripCh _
  have h3 : ((s.dropWhile stripCh).reverse).getLast? = some x := by
    rw [← e2]
    exact getLast?_append_right h
  rw [List.getLast?_reverse] at h3
  exact head?_dropWhile_false h3

theorem strip_last_ok {s : Str} {x : Nat}
    (h : (((s.dropWhile stripCh).reverse.dropWhile stripCh).reverse).getLast? = some x) :
    stripCh x = false := by
  rw [List.getLast?_reverse] at h
  exact head?_dropWhile_false h

theorem slugify_mem_goodCh {l : Str} {x : Nat} (h : x ∈ slugify l) : goodCh x = true := by
  simp only [slugify] at h
  rw [List.mem_reverse] at h
  have h1 := mem_of_mem_dropWhile h
  rw [List.mem_reverse] at h1
  have h2 := mem_of_mem_dropWhile h1
  rcases collapseAux_mem h2 with rfl | ⟨hk, hds⟩
  · decide
  · rw [List.mem_filter] at hk
    obtain ⟨hlow, hcls⟩ := hk
    rw [List.mem_map] at hlow
    obtain ⟨y, -, rfl⟩ := hlow
    have hup := asciiLower_not_upper y
    simp only [goodCh, isWordCh, isAsciiSpace, dashSpace, Bool.or_eq_true,
      decide_eq_true_eq, beq_iff_eq] at hcls hup ⊢
    simp only [dashSpace, isAsciiSpace, Bool.or_eq_false_iff,
      beq_eq_false_iff_ne, ne_eq] at hds
    omega

theorem slugify_chain (l : Str) : List.Chain' noDashPair (slugify l) := by
  simp only [slugify]
  exact chain'_strip (collapseAux_chain false)

theorem slugify_head_ok {l : Str} {x : Nat} (h : (slugify l).head? = some x) :
    stripCh x = false := by
  simp only [slugify] at h
  exact strip_head_ok h

theorem slugify_last_ok {l : Str} {x : Nat} (h : (slugify l).getLast? = some x) :
    stripCh x = false := by
  simp only [slugify] at h
  exact strip_last_ok h

theorem slugify_fixed {s : Str}
    (hg : ∀ x ∈ s, goodCh x = true)
    (hch : List.Chain' noDashPair s)
    (hh : ∀ x, s.head? = some x → stripCh x = false)
    (hl : ∀ x, s.getLast? = some x → stripCh x = false) :
    slugify s = s := by
  simp only [slugify]
  have e1 : s.filter (fun n => decide (n < 128)) = s := by
    rw [List.filter_eq_self]
    intro a ha
    have := hg a ha
    simp only [goodCh, Bool.or_eq_true, decide_eq_true_eq, beq_iff_eq] at this
    simp only [decide_eq_true_eq]
    omega
  rw [e1]
  have e2 : s.map asciiLower = s := by
    apply map_eq_self_of
    intro a ha
    have := hg a ha
    simp only [goodCh, Bool.or_eq_true, decide_eq_true_eq, beq_iff_eq] at this
    unfold asciiLower
    split
    · omega
    · rfl
  rw [e2]
  have e3 : s.filter (fun n => isWordCh n || isAsciiSpace n || n == 45) = s := by
    rw [List.filter_eq_self]
    intro a ha
    have := hg a ha
    simp only [goodCh, Bool.or_eq_true, decide_eq_true_eq, beq_iff_eq] at this
    simp only [isWordCh, isAsciiSpace, Bool.or_eq_true, decide_eq_true_eq, beq_iff_eq]
    omega
  rw [e3]
  have e4 : collapseAux s false = s := by
    refine (collapseAux_fixed ?_ hch).1
    intro a ha
    have := hg a ha
    simp only [goodCh, Bool.or_eq_true, decide_eq_true_eq, beq_iff_eq] at this
    simp only [isAsciiSpace, Bool.or_eq_true, beq_iff_eq]
    simp only [Bool.or_eq_false_iff, beq_eq_false_iff_ne, ne_eq]
    omega
  rw [e4]
  have e5 : s.dropWhile stripCh = s := by
    cases hs : s with
    | nil => rfl
    | cons a t =>
      have ha : stripCh a = false := by
        apply hh
        rw [hs]
        rfl
      rw [List.dropWhile_cons, ha]
      simp
  rw [e5]
  have e6 : s.reverse.dropWhile stripCh = s.reverse := by
    cases hr : s.reverse with
    | nil => rfl
    | cons a t =>
      have ha : s.getLast? = some a := by
        rw [← List.head?_reverse, hr]
        rfl
      have ha' : stripCh a = false := hl a ha
      rw [List.dropWhile_cons, ha']
      simp
  rw [e6, List.reverse_reverse]

/-- Sanity check pinned by the repo's own test suite
(`test_slug_generation_on_save`): the slug of "A Sample Post Title" is
"a-sample-post-title". -/
theorem slugify_sample : slugify (strOf "A Sample Post Title") = strOf "a-sample-post-title" := by
  decide

/- ================================================================
   Claim theorems
   ================================================================ -/

/-- Claim C7: slug derivation is idempotent — for every title string `t`,
`slugify (slugify t) = slugify t` — and `Post.save` recomputes the slug from
the title on every save. -/
theorem C7_slug_idempotent_and_recomputed :
    (∀ t : Str, slugify (slugify t) = slugify t) ∧
    ∀ p : Post, (post_save p).slug = slugify p.title := by
  constructor
  · intro t
    exact slugify_fixed (fun x hx => slugify_mem_goodCh hx) (slugify_chain t)
      (fun x hx => slugify_head_ok hx) (fun x hx => slugify_last_ok hx)
  · intro p
    rfl

/-- Claim C2 is false on the code: `CommentSerializer` does not list
`is_approved` among its `read_only_fields`, and `comment_create` saves every
validated field, so the authenticated non-staff user 5 posting
`{post: 1, body: "hi", is_approved: true}` creates a comment whose
`is_approved` is `true` (the `author=U` half does hold: the serializer forces
`author := request.user`). -/
theorem C2_is_approved_honored_at_create :
    comment_create dbFix (Caller.user 5 false)
        { post := some 1, body := some (strOf "hi"), is_approved := some true } =
      CreateResult.created cexApprovedComment ∧
    cexApprovedComment.is_approved = true ∧
    cexApprovedComment.author = some 5 := by
  refine ⟨by decide, rfl, rfl⟩

/-- Claim C3 is false on the code: `PostDetailSerializer.get_comment_count`
reads `obj.comments`, but the reverse accessor generated for `Comment.post`
is `comment_set`, so the method raises `AttributeError` instead of returning
the approved-comment count (which would be 1 for `fixPost2` here, matching
the intent of the method's own docstring). -/
theorem C3_comment_count_attribute_error :
    get_comment_count dbFix fixPost2 = Except.error "AttributeError" ∧
    approvedCommentCount dbFix fixPost2.id = 1 ∧
    postRelatedQuery dbFix fixPost2 commentReverseAccessor =
      some [fixComment4, fixComment5] := by
  refine ⟨rfl, by decide, by decide⟩

/-- Claim C4: the 404-for-unpublished-to-non-staff half holds (the filtered
`get_object_or_404` runs before serialization), but the staff-gets-200 half
is false on the code: serializing any found post raises `AttributeError` in
`get_comment_count`, so a staff GET of an existing post answers 500, not 200
(`fixPost1` unpublished, `fixPost2` published). -/
theorem C4_post_detail_statuses :
    post_detail_get dbFix (Caller.user 8 false) 1 = 404 ∧
    post_detail_get dbFix Caller.anon 1 = 404 ∧
    post_detail_get dbFix (Caller.user 9 true) 1 = 500 ∧
    post_detail_get dbFix (Caller.user 9 true) 2 = 500 := by
  refine ⟨by decide, by decide, by decide, by decide⟩

/-- Claim C1 as stated is false on the code: `UserSerializer` does not put
`is_staff` (or `is_active`) in `read_only_fields`, and
`create_user(**extra_fields)` forwards them, so registering with
`{email, password, is_staff: true}` creates a staff user. -/
theorem C1_counterexample :
    registerUser dbEmpty plEvil = RegisterResult.created cexStaffUser ∧
    cexStaffUser.is_staff = true := by
  refine ⟨by decide, rfl⟩

/-- Claim C1 amended: a registration whose payload does not supply `is_staff`
or `is_active` creates a user with the model defaults `is_staff = false` and
`is_active = true`. -/
theorem C1_amended_registration_defaults (db : DB) (pl : RegisterPayload)
    (h1 : pl.is_staff = none) (h2 : pl.is_active = none) (u : DUser)
    (hu : registerUser db pl = RegisterResult.created u) :
    u.is_staff = false ∧ u.is_active = true := by
  unfold registerUser at hu
  split at hu
  · split at hu
    · injection hu with h3
      subst h3
      simp [create_user, h1, h2]
    · exact RegisterResult.noConfusion hu
  · exact RegisterResult.noConfusion hu

theorem C1_amended_witness :
    regUserGood.is_staff = false ∧ regUserGood.is_active = true :=
  C1_amended_registration_defaults dbEmpty plGood rfl rfl regUserGood (by decide)

/-- Claim C5: a PATCH on a comment by its non-staff author whose payload sets
both `is_approved` and `body` succeeds, updates `body` to the supplied value
and leaves `is_approved` at its prior value (the view deletes `is_approved`
from `validated_data` for non-staff callers). -/
theorem C5_nonstaff_patch_filters_is_approved (db : DB) (uid pk : Nat)
    (c : Comment) (b : Str)
    (hfind : findComment db pk = some c)
    (hauthor : c.author = some uid)
    (hb : b ≠ []) :
    comment_update db (Caller.user uid false) pk Method.PATCH
        { post := none, body := some b, is_approved := some true } =
      UpdateResult.ok { c with body := b } := by
  simp [comment_update, hfind, IsAuthorOrAdmin_has_permission, Caller.is_authenticated,
    IsAuthorOrAdmin_has_object_permission, Caller.is_staff, hauthor,
    commentFieldErrors, hb]

theorem C5_witness :
    comment_update dbFix (Caller.user 5 false) 3 Method.PATCH
        { post := none, body := some (strOf "x"), is_approved := some true } =
      UpdateResult.ok { fixComment3 with body := strOf "x" } :=
  C5_nonstaff_patch_filters_is_approved dbFix 5 3 fixComment3 (strOf "x")
    (by decide) (by decide) (by decide)

/-- Claim C6: for every unsafe method on the post endpoints the
`IsAdminOrReadOnly` gate rejects anonymous callers with 401 and authenticated
non-staff callers with 403, and lets staff through. -/
theorem C6_unsafe_post_methods_gate (m : Method)
    (hm : m ∈ [Method.POST, Method.PUT, Method.PATCH, Method.DELETE]) (i : Nat) :
    post_endpoint_gate Caller.anon m = some 401 ∧
    post_endpoint_gate (Caller.user i false) m = some 403 ∧
    post_endpoint_gate (Caller.user i true) m = none := by
  cases m <;> first
    | exact absurd hm (by decide)
    | exact ⟨rfl, rfl, rfl⟩

theorem C6_witness :
    post_endpoint_gate Caller.anon Method.POST = some 401 ∧
    post_endpoint_gate (Caller.user 5 false) Method.POST = some 403 ∧
    post_endpoint_gate (Caller.user 5 true) Method.POST = none :=
  C6_unsafe_post_methods_gate Method.POST (by decide) 5

/-- Claim C8: deleting a user keeps every post and comment (same counts),
each with all fields other than `author` unchanged, and nulls the `author`
reference exactly where it pointed at the deleted user. -/
theorem C8_user_delete_set_null (db : DB) (uid : Nat) (p : Post) (c : Comment)
    (hp : p ∈ db.posts) (hc : c ∈ db.comments) :
    postKeptWithNullableAuthor db uid p ∧ commentKeptWithNullableAuthor db uid c ∧
    (delete_user db uid).posts.length = db.posts.length ∧
    (delete_user db uid).comments.length = db.comments.length := by
  refine ⟨?_, ?_, by simp [delete_user], by simp [delete_user]⟩
  · by_cases h : p.author = some uid
    · refine ⟨{ p with author := none }, ?_, ?_⟩
      · have hmem := List.mem_map_of_mem
          (fun q => if q.author = some uid then { q with author := none } else q) hp
        simpa [delete_user, h] using hmem
      · simp [h]
    · refine ⟨p, ?_, ?_⟩
      · have hmem := List.mem_map_of_mem
          (fun q => if q.author = some uid then { q with author := none } else q) hp
        simpa [delete_user, h] using hmem
      · simp [h]
  · by_cases h : c.author = some uid
    · refine ⟨{ c with author := none }, ?_, ?_⟩
      · have hmem := List.mem_map_of_mem
          (fun q => if q.author = some uid then { q with author := none } else q) hc
        simpa [delete_user, h] using hmem
      · simp [h]
    · refine ⟨c, ?_, ?_⟩
      · have hmem := List.mem_map_of_mem
          (fun q => if q.author = some uid then { q with author := none } else q) hc
        simpa [delete_user, h] using hmem
      · simp [h]

theorem C8_witness :
    postKeptWithNullableAuthor dbFix 7 fixPost1 ∧
    commentKeptWithNullableAuthor dbFix 7 fixComment4 ∧
    (delete_user dbFix 7).posts.length = dbFix.posts.length ∧
    (delete_user dbFix 7).comments.length = dbFix.comments.length :=
  C8_user_delete_set_null dbFix 7 fixPost1 fixComment4 (by decide) (by decide)

/-- Claim C9: for an authenticated (non-staff) caller, comment creation
targeting an existing unpublished post answers 201, while targeting a
nonexistent post id answers 400 with a validation error keyed on `post` —
hidden-but-existing posts are distinguishable from absent ones. -/
theorem C9_comment_create_distinguishes (db : DB) (uid : Nat) (p : Post) (b : Str)
    (hp : findPost db p.id = some p) (hunpub : p.is_published = false)
    (hb : b ≠ []) (missing : Nat) (hmiss : findPost db missing = none) :
    createStatus (comment_create db (Caller.user uid false)
      { post := some p.id, body := some b, is_approved := none }) = 201 ∧
    comment_create db (Caller.user uid false)
      { post := some missing, body := some b, is_approved := none } =
      CreateResult.badRequest ["post"] := by
  constructor
  · simp [comment_create, commentFieldErrors, hp, hb, Caller.is_authenticated, createStatus]
  · simp [comment_create, commentFieldErrors, hmiss, hb, Caller.is_authenticated]

theorem C9_witness :
    createStatus (comment_create dbFix (Caller.user 5 false)
      { post := some fixPost1.id, body := some (strOf "hi"), is_approved := none }) = 201 ∧
    comment_create dbFix (Caller.user 5 false)
      { post := some 99, body := some (strOf "hi"), is_approved := none } =
      CreateResult.badRequest ["post"] :=
  C9_comment_create_distinguishes dbFix 5 fixPost1 (strOf "hi")
    (by decide) rfl (by decide) 99 (by decide)

/-- Claim C10: a PATCH by a comment's non-staff author that supplies a
different existing post id moves the comment to that post — the post
attachment is mutable through the update endpoint. -/
theorem C10_comment_post_mutable (db : DB) (uid pk : Nat) (c : Comment) (pid2 : Nat)
    (hfind : findComment db pk = some c)
    (hauthor : c.author = some uid)
    (hpost : (findPost db pid2).isSome = true)
    (hne : pid2 ≠ c.post) :
    comment_update db (Caller.user uid false) pk Method.PATCH
        { post := some pid2, body := none, is_approved := none } =
      UpdateResult.ok { c with post := pid2 } := by
  simp [comment_update, hfind, IsAuthorOrAdmin_has_permission, Caller.is_authenticated,
    IsAuthorOrAdmin_has_object_permission, Caller.is_staff, hauthor,
    commentFieldErrors, hpost]

theorem C10_witness :
    comment_update dbFix (Caller.user 5 false) 3 Method.PATCH
        { post := some 2, body := none, is_approved := none } =
      UpdateResult.ok { fixComment3 with post := 2 } :=
  C10_comment_post_mutable dbFix 5 3 fixComment3 2
    (by decide) (by decide) (by decide) (by decide)

end Blog
